import Mathlib

/-!
Verification of the Clean-Energy-Predictor prediction pipeline.

The definitions below are a shallow embedding of the numeric post-processing
code of the repository:

- src/backend/app/services/prediction/prediction_service_old.py
  (min-max score normalization, day filtering, best-window selection,
  impact equivalents, tree messages, response assembly); and
- src/backend/app/services/prediction.py
  (mock prediction generator and impact metrics used by the live routes).

Python float values are modelled as rationals.  A float NaN (produced by the
zero-variance normalization, 0/0) is modelled as the value none of Option.
Rounding (Python round, pandas Series.round, numpy round) rounds half to
even; it is modelled by roundHalfEven / roundTo below.  Timestamps are UTC
hours since an arbitrary epoch, so the calendar date of a timestamp t is
t / 24.
-/

namespace CleanEnergy

/-- Round a rational to the nearest integer, ties going to the even integer.
Models the rounding of Python round(), pandas Series.round and numpy round,
which all round half to even. -/
def roundHalfEven (x : ℚ) : ℤ :=
  if x - ⌊x⌋ < 1/2 then ⌊x⌋
  else if 1/2 < x - ⌊x⌋ then ⌊x⌋ + 1
  else if ⌊x⌋ % 2 = 0 then ⌊x⌋ else ⌊x⌋ + 1

/-- Round a rational to n decimal places; models round(x, n) / Series.round(n). -/
def roundTo (n : ℕ) (x : ℚ) : ℚ :=
  (roundHalfEven (x * 10 ^ n) : ℚ) / 10 ^ n

lemma roundHalfEven_eq_floor_or (x : ℚ) :
    roundHalfEven x = ⌊x⌋ ∨ roundHalfEven x = ⌊x⌋ + 1 := by
  unfold roundHalfEven
  split_ifs <;> simp

lemma floor_le_roundHalfEven (x : ℚ) : ⌊x⌋ ≤ roundHalfEven x := by
  rcases roundHalfEven_eq_floor_or x with h | h <;> omega

lemma roundHalfEven_le_ceil (x : ℚ) : roundHalfEven x ≤ ⌈x⌉ := by
  unfold roundHalfEven
  have hceil : ¬ (x - ⌊x⌋ < 1/2) → ⌊x⌋ + 1 ≤ ⌈x⌉ := by
    intro h1
    have hfr : (1:ℚ)/2 ≤ x - ⌊x⌋ := le_of_not_lt h1
    have hx : (⌊x⌋ : ℚ) < x := by linarith
    have hlt : ⌊x⌋ < ⌈x⌉ := by
      have : (⌊x⌋ : ℚ) < (⌈x⌉ : ℚ) := lt_of_lt_of_le hx (Int.le_ceil x)
      exact_mod_cast this
    omega
  split_ifs with h1 h2 h3
  · exact Int.floor_le_ceil x
  · exact hceil h1
  · exact Int.floor_le_ceil x
  · exact hceil h1

lemma roundHalfEven_intCast (k : ℤ) : roundHalfEven (k : ℚ) = k := by
  unfold roundHalfEven
  rw [Int.floor_intCast, if_pos (by norm_num : ((k:ℚ) - k < 1/2))]

lemma roundTo_intCast (n : ℕ) (k : ℤ) : roundTo n (k : ℚ) = k := by
  unfold roundTo
  have h : ((k : ℚ) * 10 ^ n) = ((k * 10 ^ n : ℤ) : ℚ) := by push_cast; ring
  rw [h, roundHalfEven_intCast]
  push_cast
  field_simp

lemma roundTo_nonneg {n : ℕ} {x : ℚ} (hx : 0 ≤ x) : 0 ≤ roundTo n x := by
  unfold roundTo
  apply div_nonneg _ (by positivity)
  have h0 : (0:ℤ) ≤ ⌊x * 10 ^ n⌋ :=
    Int.floor_nonneg.mpr (mul_nonneg hx (by positivity))
  have h1 := floor_le_roundHalfEven (x * 10 ^ n)
  exact_mod_cast le_trans h0 h1

lemma roundTo_le_intCast {n : ℕ} {x : ℚ} {k : ℤ} (h : x ≤ (k : ℚ)) :
    roundTo n x ≤ (k : ℚ) := by
  unfold roundTo
  rw [div_le_iff (by positivity)]
  have h1 : roundHalfEven (x * 10 ^ n) ≤ ⌈x * 10 ^ n⌉ := roundHalfEven_le_ceil _
  have h2 : ⌈x * 10 ^ n⌉ ≤ k * 10 ^ n := by
    apply Int.ceil_le.mpr
    push_cast
    exact mul_le_mul_of_nonneg_right h (by positivity)
  calc ((roundHalfEven (x * 10 ^ n) : ℤ) : ℚ)
      ≤ ((⌈x * 10 ^ n⌉ : ℤ) : ℚ) := by exact_mod_cast h1
    _ ≤ ((k * 10 ^ n : ℤ) : ℚ) := by exact_mod_cast h2
    _ = (k : ℚ) * 10 ^ n := by push_cast; ring

lemma intCast_le_roundTo {n : ℕ} {x : ℚ} {k : ℤ} (h : (k : ℚ) ≤ x) :
    (k : ℚ) ≤ roundTo n x := by
  unfold roundTo
  rw [le_div_iff (by positivity)]
  have h2 : k * 10 ^ n ≤ ⌊x * 10 ^ n⌋ := by
    apply Int.le_floor.mpr
    push_cast
    exact mul_le_mul_of_nonneg_right h (by positivity)
  have h1 := floor_le_roundHalfEven (x * 10 ^ n)
  calc (k : ℚ) * 10 ^ n = ((k * 10 ^ n : ℤ) : ℚ) := by push_cast; ring
    _ ≤ ((roundHalfEven (x * 10 ^ n) : ℤ) : ℚ) := by exact_mod_cast le_trans h2 h1

/-- Maximum of a list of rationals; models pandas Series.max, which is NaN
(here: none) on an empty series. -/
def listMax : List ℚ → Option ℚ
  | [] => none
  | a :: as => some (as.foldl max a)

/-- Minimum of a list of rationals; models pandas Series.min. -/
def listMin : List ℚ → Option ℚ
  | [] => none
  | a :: as => some (as.foldl min a)

lemma foldl_max_init_le (as : List ℚ) : ∀ a : ℚ, a ≤ as.foldl max a := by
  induction as with
  | nil => intro a; simp
  | cons b bs ih =>
    intro a
    simpa using le_trans (le_max_left a b) (ih (max a b))

lemma foldl_max_mem_le (as : List ℚ) : ∀ a r : ℚ, r ∈ as → r ≤ as.foldl max a := by
  induction as with
  | nil => intro a r hr; simp at hr
  | cons b bs ih =>
    intro a r hr
    rcases List.mem_cons.mp hr with h | h
    · subst h
      simpa using le_trans (le_max_right a r) (foldl_max_init_le bs (max a r))
    · simpa using ih (max a b) r h

lemma le_listMax {l : List ℚ} {r mx : ℚ} (hr : r ∈ l) (hmx : listMax l = some mx) :
    r ≤ mx := by
  cases l with
  | nil => simp at hr
  | cons a as =>
    simp only [listMax, Option.some.injEq] at hmx
    subst hmx
    rcases List.mem_cons.mp hr with h | h
    · subst h; exact foldl_max_init_le as r
    · exact foldl_max_mem_le as a r h

lemma foldl_min_le_init (as : List ℚ) : ∀ a : ℚ, as.foldl min a ≤ a := by
  induction as with
  | nil => intro a; simp
  | cons b bs ih =>
    intro a
    simpa using le_trans (ih (min a b)) (min_le_left a b)

lemma foldl_min_le_mem (as : List ℚ) : ∀ a r : ℚ, r ∈ as → as.foldl min a ≤ r := by
  induction as with
  | nil => intro a r hr; simp at hr
  | cons b bs ih =>
    intro a r hr
    rcases List.mem_cons.mp hr with h | h
    · subst h
      simpa using le_trans (foldl_min_le_init bs (min a r)) (min_le_right a r)
    · simpa using ih (min a b) r h

lemma listMin_le {l : List ℚ} {r mn : ℚ} (hr : r ∈ l) (hmn : listMin l = some mn) :
    mn ≤ r := by
  cases l with
  | nil => simp at hr
  | cons a as =>
    simp only [listMin, Option.some.injEq] at hmn
    subst hmn
    rcases List.mem_cons.mp hr with h | h
    · subst h; exact foldl_min_le_init as r
    · exact foldl_min_le_mem as a r h

/-- Shallow embedding of the score normalization of generate_predictions
(src/backend/app/services/prediction/prediction_service_old.py, lines
516-519): cleanliness_score = ((predicted_score - min) / (max - min) * 100)
rounded to 1 decimal.  When max = min the float division is 0/0, a NaN,
modelled as none; the NaN propagates through multiplication and rounding. -/
def minMaxNormalize (raws : List ℚ) : List (Option ℚ) :=
  raws.map fun r =>
    match listMax raws, listMin raws with
    | some mx, some mn =>
        if mx = mn then none
        else some (roundTo 1 ((r - mn) / (mx - mn) * 100))
    | _, _ => none

/-- Arithmetic mean of the window of d scores starting at index i; models
sum(scores[i:i+duration_hours]) / duration_hours from the source. -/
def windowAvg (scores : List ℚ) (i d : ℕ) : ℚ :=
  ((scores.drop i).take d).sum / (d : ℚ)

/-- Number of iterations of the window loop; models the Python expression
range(len(scores) - duration_hours + 1) over ints, which is empty whenever
the bound is not positive. -/
def numWindows (len d : ℕ) : ℕ :=
  if d ≤ len then len - d + 1 else 0

/-- Shallow embedding of the best-window selection loop of
generate_predictions (lines 527-534): starting from best_start_idx = 0 and
best_avg = -1, the loop updates on strictly greater window averages. -/
def bestWindow (scores : List ℚ) (d : ℕ) : ℕ × ℚ :=
  (List.range (numWindows scores.length d)).foldl
    (fun best i =>
      let avg := ((scores.drop i).take d).sum / (d : ℚ)
      if best.2 < avg then (i, avg) else best)
    (0, -1)

/-- Generic form of the selection loop over window indices 0 .. n-1 with the
window average abstracted into f. -/
def selectLoop (f : ℕ → ℚ) (n : ℕ) : ℕ × ℚ :=
  (List.range n).foldl (fun b i => if b.2 < f i then (i, f i) else b) (0, -1)

lemma bestWindow_eq_selectLoop (scores : List ℚ) (d : ℕ) :
    bestWindow scores d
      = selectLoop (fun i => windowAvg scores i d) (numWindows scores.length d) := rfl

lemma selectLoop_zero (f : ℕ → ℚ) : selectLoop f 0 = (0, -1) := rfl

lemma selectLoop_succ (f : ℕ → ℚ) (n : ℕ) :
    selectLoop f (n + 1)
      = (if (selectLoop f n).2 < f n then (n, f n) else selectLoop f n) := by
  unfold selectLoop
  rw [List.range_succ, List.foldl_append]
  simp

lemma selectLoop_spec (f : ℕ → ℚ) :
    ∀ n : ℕ, 1 ≤ n → (∀ i, i < n → -1 < f i) →
      (selectLoop f n).1 < n
      ∧ (selectLoop f n).2 = f (selectLoop f n).1
      ∧ (∀ i, i < n → f i ≤ (selectLoop f n).2)
      ∧ (∀ i, i < (selectLoop f n).1 → f i < (selectLoop f n).2) := by
  intro n
  induction n with
  | zero => omega
  | succ n ih =>
    intro _ hf
    by_cases hn : 1 ≤ n
    · obtain ⟨h1, h2, h3, h4⟩ := ih hn (fun i hi => hf i (Nat.lt_succ_of_lt hi))
      rw [selectLoop_succ]
      by_cases hlt : (selectLoop f n).2 < f n
      · rw [if_pos hlt]
        refine ⟨Nat.lt_succ_self n, rfl, ?_, ?_⟩
        · intro i hi
          rcases Nat.lt_succ_iff_lt_or_eq.mp hi with h | h
          · exact le_of_lt (lt_of_le_of_lt (h3 i h) hlt)
          · subst h; exact le_refl _
        · intro i hi
          have hi2 : i < n := hi
          exact lt_of_le_of_lt (h3 i hi2) hlt
      · rw [if_neg hlt]
        refine ⟨Nat.lt_succ_of_lt h1, h2, ?_, h4⟩
        intro i hi
        rcases Nat.lt_succ_iff_lt_or_eq.mp hi with h | h
        · exact h3 i h
        · subst h; exact not_lt.mp hlt
    · have hn0 : n = 0 := by omega
      subst hn0
      rw [selectLoop_succ, selectLoop_zero, if_pos (hf 0 (by omega))]
      refine ⟨by omega, rfl, ?_, by intro i hi; simp at hi⟩
      intro i hi
      have : i = 0 := by omega
      subst this
      exact le_refl _

lemma mem_of_mem_window {l : List ℚ} {i d : ℕ} {x : ℚ}
    (hx : x ∈ (l.drop i).take d) : x ∈ l :=
  List.mem_of_mem_drop (List.mem_of_mem_take hx)

lemma windowAvg_nonneg (scores : List ℚ) (i d : ℕ)
    (hs : ∀ s ∈ scores, 0 ≤ s) : 0 ≤ windowAvg scores i d := by
  unfold windowAvg
  apply div_nonneg _ (Nat.cast_nonneg d)
  exact List.sum_nonneg (fun x hx => hs x (mem_of_mem_window hx))

lemma numWindows_eq {len d : ℕ} (h : d ≤ len) : numWindows len d = len - d + 1 :=
  if_pos h

lemma lt_numWindows_iff {len d i : ℕ} (hd : 1 ≤ d) (h : d ≤ len) :
    i < numWindows len d ↔ i + d ≤ len := by
  rw [numWindows_eq h]
  omega

lemma bestWindow_spec (scores : List ℚ) (d : ℕ)
    (hd : 1 ≤ d) (hlen : d ≤ scores.length) (hs : ∀ s ∈ scores, 0 ≤ s) :
    (bestWindow scores d).1 + d ≤ scores.length
    ∧ (bestWindow scores d).2 = windowAvg scores (bestWindow scores d).1 d
    ∧ (∀ j, j + d ≤ scores.length → windowAvg scores j d ≤ (bestWindow scores d).2)
    ∧ (∀ j, j + d ≤ scores.length →
        windowAvg scores j d = (bestWindow scores d).2 → (bestWindow scores d).1 ≤ j) := by
  have hn : 1 ≤ numWindows scores.length d := by
    rw [numWindows_eq hlen]; omega
  have hf : ∀ i, i < numWindows scores.length d → (-1 : ℚ) < windowAvg scores i d := by
    intro i _
    exact lt_of_lt_of_le (by norm_num) (windowAvg_nonneg scores i d hs)
  obtain ⟨h1, h2, h3, h4⟩ := selectLoop_spec (fun i => windowAvg scores i d)
    (numWindows scores.length d) hn hf
  rw [bestWindow_eq_selectLoop]
  refine ⟨(lt_numWindows_iff hd hlen).mp h1, h2, ?_, ?_⟩
  · intro j hj
    exact h3 j ((lt_numWindows_iff hd hlen).mpr hj)
  · intro j hj heq
    by_contra hcon
    push_neg at hcon
    exact absurd heq (ne_of_lt (h4 j hcon))

/-- Scored forecast hour after normalization: a UTC timestamp (hours since an
arbitrary epoch, so the calendar date is dt / 24) and its cleanliness score. -/
structure ScoredRow where
  dt : ℕ
  score : ℚ
deriving Repr, DecidableEq

/-- Impact dictionary of the first calculate_impact variant (lines 286-295)
of prediction_service_old.py; 21.77 is 2177/100 and 0.192 is 192/1000. -/
structure ImpactInfo where
  co2_saved_kg : ℚ
  trees_planted_equiv : ℚ
  km_car_avoided_equiv : ℚ
deriving Repr, DecidableEq

/-- Embedding of calculate_impact (prediction_service_old.py, lines 286-295). -/
def calculate_impact (avg_score best_score : ℚ) (duration_hours : ℕ) : ImpactInfo :=
  let co2_saved_kg := max 0 ((best_score - avg_score) / 10) * (duration_hours : ℚ)
  { co2_saved_kg := roundTo 2 co2_saved_kg
    trees_planted_equiv := roundTo 2 (co2_saved_kg / (2177/100))
    km_car_avoided_equiv := roundTo 1 (co2_saved_kg / (192/1000)) }

/-- Embedding of format_tree_message (prediction_service_old.py, lines
476-488), with the string literals copied byte for byte from the source. -/
def format_tree_message (trees : ℚ) : String :=
  if trees < 1/2 then "You helped a sapling take root ðŸŒ±"
  else if trees < 3/2 then "You planted a tree today ðŸŒ³"
  else if trees < 3 then "You planted two trees ðŸŒ³ðŸŒ³"
  else if trees < 5 then "You grew a small grove ðŸŒ²ðŸŒ³ðŸŒ²"
  else if trees < 10 then "You restored a patch of forest ðŸŒ³ðŸŒ³ðŸŒ³ðŸŒ³ðŸŒ³"
  else "You made a forest flourish ðŸŒ³ðŸŒ²ðŸŒ³ðŸŒ²ðŸŒ³"

/-- The six fixed messages of format_tree_message, lowest tier first. -/
def treeMessages : List String :=
  ["You helped a sapling take root ðŸŒ±",
   "You planted a tree today ðŸŒ³",
   "You planted two trees ðŸŒ³ðŸŒ³",
   "You grew a small grove ðŸŒ²ðŸŒ³ðŸŒ²",
   "You restored a patch of forest ðŸŒ³ðŸŒ³ðŸŒ³ðŸŒ³ðŸŒ³",
   "You made a forest flourish ðŸŒ³ðŸŒ²ðŸŒ³ðŸŒ²ðŸŒ³"]

/-- Tier index selected by format_tree_message: the step function over the
thresholds 0.5, 1.5, 3, 5 and 10. -/
def treeTier (trees : ℚ) : ℕ :=
  if trees < 1/2 then 0
  else if trees < 3/2 then 1
  else if trees < 3 then 2
  else if trees < 5 then 3
  else if trees < 10 then 4
  else 5

/-- Impact dictionary of the second calculate_impact variant (lines 490-496),
the one called by the window-selection pipeline. -/
structure TreeImpact where
  trees_planted_equiv : ℚ
  tree_message : String
deriving Repr, DecidableEq

/-- Embedding of calculate_impact (prediction_service_old.py, lines 490-496). -/
def calculateImpactTree (avg_score best_score : ℚ) (duration_hours : ℕ) : TreeImpact :=
  let co2_saved_kg := max 0 ((best_score - avg_score) / 10) * (duration_hours : ℚ)
  let trees_planted := roundTo 2 (co2_saved_kg / (2177/100))
  { trees_planted_equiv := trees_planted
    tree_message := format_tree_message trees_planted }

/-- Failure modes of the embedded pipeline segment.  NoDataForDay is the
HTTPException 404 raised when the day filter leaves an empty frame;
InternalError stands for any other uncaught exception turned into a 500
(for example the ZeroDivisionError of sum(scores)/len(scores) on an empty
frame, or an IndexError on an empty best block). -/
inductive PredError where
  | NoDataForDay
  | InternalError
deriving Repr, DecidableEq

/-- The recommended_window part of the response dict (lines 551-563) plus the
filtered prediction rows it is packaged with. -/
structure PredResponse where
  start : ℕ
  finish : ℕ
  average_cleanliness_score : ℚ
  impact : TreeImpact
  predictions : List ScoredRow
deriving Repr, DecidableEq

/-- Day filtering of the scored frame (lines 521-523): keep the rows whose
UTC calendar date equals the target date. -/
def filteredRows (rows : List ScoredRow) (day : Option ℕ) : List ScoredRow :=
  match day with
  | some d => rows.filter (fun r => r.dt / 24 == d)
  | none => rows

/-- Embedding of generate_predictions (prediction_service_old.py, lines
527-563) from the point where the day-filtered scored frame exists: window
selection, impact computation and response assembly. -/
def pipelineCore (dfp : List ScoredRow) (duration_hours : ℕ) :
    Except PredError PredResponse :=
  let scores := dfp.map ScoredRow.score
  let bw := bestWindow scores duration_hours
  let bestBlock := (dfp.drop bw.1).take duration_hours
  if scores.length = 0 then
    Except.error PredError.InternalError
  else
    let impact := calculateImpactTree (scores.sum / (scores.length : ℚ))
      bw.2 duration_hours
    match bestBlock with
    | [] => Except.error PredError.InternalError
    | b :: bs =>
        Except.ok {
          start := b.dt
          finish := ((b :: bs).getLast (List.cons_ne_nil b bs)).dt
          average_cleanliness_score := roundTo 1 bw.2
          impact := impact
          predictions := dfp }

/-- Embedding of generate_predictions from the day filter onward (lines
521-563): filter the scored rows when a day is given, fail with the 404
NoDataForDay when the filter leaves no rows, then select the best window. -/
def pipelineSelect (rows : List ScoredRow) (day : Option ℕ) (duration_hours : ℕ) :
    Except PredError PredResponse :=
  let dfp := filteredRows rows day
  match day with
  | some _ =>
      if dfp.isEmpty then Except.error PredError.NoDataForDay
      else pipelineCore dfp duration_hours
  | none => pipelineCore dfp duration_hours

/-- Prediction point produced by the mock service
(src/backend/app/services/prediction.py, lines 21-50). -/
structure MockPoint where
  timestamp : ℕ
  cleanliness_score : ℚ
  confidence : ℚ
  carbon_intensity : ℚ
deriving Repr, DecidableEq

/-- Embedding of PredictionService._generate_mock_predictions
(src/backend/app/services/prediction.py, lines 21-50).  The base time is in
whole hours (the code truncates minutes and seconds), so the hour of point i
is (baseTime + i) mod 24.  sinVal models the external transcendental routine
np.sin((hour - 6) * pi / 12) applied at a given hour; nightR and confR model
draws of np.random.random() and noise models draws of np.random.normal(0, 10),
indexed by the point they are consumed for. -/
def generateMockPredictions (sinVal : ℕ → ℚ) (nightR noise confR : ℕ → ℚ)
    (baseTime hours : ℕ) : List MockPoint :=
  (List.range hours).map fun i =>
    let hour := (baseTime + i) % 24
    let base_score :=
      if 6 ≤ hour ∧ hour ≤ 18 then 60 + 30 * sinVal hour
      else 40 + 20 * nightR i
    let score := max 0 (min 100 (base_score + noise i))
    let carbon_intensity := 600 - score * 4
    { timestamp := baseTime + i
      cleanliness_score := roundTo 1 score
      confidence := roundTo 2 (7/10 + 3/10 * confR i)
      carbon_intensity := roundTo 1 carbon_intensity }

/-- Python int() conversion on a float: truncation toward zero. -/
def pyInt (x : ℚ) : ℤ := if 0 ≤ x then ⌊x⌋ else ⌈x⌉

/-- ImpactMetrics model (src/backend/app/models/prediction.py, lines 76-81). -/
structure ImpactMetrics where
  co2_saved_kg : ℚ
  trees_equivalent : ℤ
  car_km_avoided : ℚ
  coal_plants_offset_hours : ℚ
deriving Repr, DecidableEq

/-- Embedding of PredictionService._calculate_impact_metrics
(src/backend/app/services/prediction.py, lines 75-91); 0.12 is 12/100. -/
def calculateImpactMetrics (co2_saved_kg : ℚ) : ImpactMetrics :=
  let trees_equivalent := pyInt (co2_saved_kg * 365 / 22)
  { co2_saved_kg := roundTo 2 co2_saved_kg
    trees_equivalent := max 1 trees_equivalent
    car_km_avoided := roundTo 1 (co2_saved_kg / (12/100))
    coal_plants_offset_hours := roundTo 4 (co2_saved_kg / 820000) }

lemma roundTo_zero (n : ℕ) : roundTo n 0 = 0 := by
  have h := roundTo_intCast n 0
  simpa using h

lemma roundTo_one_neg_one : roundTo 1 (-1) = -1 := by
  have h := roundTo_intCast 1 (-1)
  simpa using h

lemma roundTo_one_hundred : roundTo 1 (100 : ℚ) = 100 := by
  have h := roundTo_intCast 1 100
  simpa using h

lemma mem_of_mem_filteredRows {rows : List ScoredRow} {day : Option ℕ}
    {r : ScoredRow} (hr : r ∈ filteredRows rows day) : r ∈ rows := by
  cases day with
  | none => exact hr
  | some d => exact List.mem_of_mem_filter hr

/-- C2: the claim asks that zero-variance batches normalize to a defined
constant, but the code has no defensive branch: with max = min the float
division is 0/0 and every normalized score is NaN (none).  Evaluated at the
all-equal raw batch 7, 7, 7. -/
theorem c2_zero_variance_produces_nan :
    minMaxNormalize [7, 7, 7] = [none, none, none] := by
  norm_num [minMaxNormalize, listMax, listMin]

/-- C5: for a non-empty raw batch with nonzero variance, every normalized
score equals (raw - min) / (max - min) * 100 rounded to one decimal, all
normalized scores lie in the interval 0 to 100, the maximal raw score maps
to exactly 100 and the minimal raw score to exactly 0. -/
theorem c5_nonzero_variance_normalization
    (raws : List ℚ) (mx mn : ℚ)
    (hmx : listMax raws = some mx) (hmn : listMin raws = some mn)
    (hlt : mn < mx) :
    minMaxNormalize raws
      = raws.map (fun r => some (roundTo 1 ((r - mn) / (mx - mn) * 100)))
    ∧ ∀ r ∈ raws,
        0 ≤ roundTo 1 ((r - mn) / (mx - mn) * 100)
        ∧ roundTo 1 ((r - mn) / (mx - mn) * 100) ≤ 100
        ∧ (r = mx → roundTo 1 ((r - mn) / (mx - mn) * 100) = 100)
        ∧ (r = mn → roundTo 1 ((r - mn) / (mx - mn) * 100) = 0) := by
  have hne : mx ≠ mn := ne_of_gt hlt
  have hpos : 0 < mx - mn := sub_pos.mpr hlt
  constructor
  · unfold minMaxNormalize
    rw [hmx, hmn]
    simp [hne]
  · intro r hr
    have hle1 : mn ≤ r := listMin_le hr hmn
    have hle2 : r ≤ mx := le_listMax hr hmx
    have hv0 : 0 ≤ (r - mn) / (mx - mn) * 100 := by
      apply mul_nonneg _ (by norm_num)
      exact div_nonneg (by linarith) hpos.le
    have hv100 : (r - mn) / (mx - mn) * 100 ≤ 100 := by
      have h1 : (r - mn) / (mx - mn) ≤ 1 := (div_le_one hpos).mpr (by linarith)
      linarith
    refine ⟨roundTo_nonneg hv0, ?_, ?_, ?_⟩
    · have h := roundTo_le_intCast (n := 1) (k := 100) (by exact_mod_cast hv100)
      exact_mod_cast h
    · intro hreq
      subst hreq
      rw [div_self (ne_of_gt hpos), one_mul, roundTo_one_hundred]
    · intro hreq
      subst hreq
      rw [sub_self, zero_div, zero_mul, roundTo_zero]

/-- Witness for C5 at the concrete batch 1, 3. -/
theorem c5_witness :
    (listMax [(1:ℚ), 3] = some 3 ∧ listMin [(1:ℚ), 3] = some 1 ∧ (1:ℚ) < 3)
    ∧ (minMaxNormalize [(1:ℚ), 3]
        = [(1:ℚ), 3].map (fun r => some (roundTo 1 ((r - 1) / (3 - 1) * 100)))
      ∧ ∀ r ∈ [(1:ℚ), 3],
          0 ≤ roundTo 1 ((r - 1) / (3 - 1) * 100)
          ∧ roundTo 1 ((r - 1) / (3 - 1) * 100) ≤ 100
          ∧ (r = 3 → roundTo 1 ((r - 1) / (3 - 1) * 100) = 100)
          ∧ (r = 1 → roundTo 1 ((r - 1) / (3 - 1) * 100) = 0)) :=
  ⟨⟨by norm_num [listMax, max_def], by norm_num [listMin, min_def], by norm_num⟩,
   c5_nonzero_variance_normalization [1, 3] 3 1
     (by norm_num [listMax, max_def]) (by norm_num [listMin, min_def]) (by norm_num)⟩

/-- C3: on a scored-hour sequence (scores between 0 and 100) with at least
duration_hours elements, the selection loop returns the start index of a
full window inside the sequence whose average equals the reported best
average, that average is maximal over all windows of the same length, and
any window achieving it starts no earlier than the returned start (earliest
start wins ties).  With duration 1 this is the single highest-scoring hour,
earliest first. -/
theorem c3_best_window_argmax (scores : List ℚ) (d : ℕ)
    (hd : 1 ≤ d) (hlen : d ≤ scores.length)
    (hs : ∀ s ∈ scores, 0 ≤ s ∧ s ≤ 100) :
    (bestWindow scores d).1 + d ≤ scores.length
    ∧ (bestWindow scores d).2 = windowAvg scores (bestWindow scores d).1 d
    ∧ (∀ j, j + d ≤ scores.length → windowAvg scores j d ≤ (bestWindow scores d).2)
    ∧ (∀ j, j + d ≤ scores.length →
        windowAvg scores j d = (bestWindow scores d).2 → (bestWindow scores d).1 ≤ j) :=
  bestWindow_spec scores d hd hlen (fun s hsm => (hs s hsm).1)

/-- Witness for C3 at the concrete score list 50, 90, 90, 50 with duration 1. -/
theorem c3_witness :
    (1 ≤ 1 ∧ 1 ≤ ([50, 90, 90, 50] : List ℚ).length
      ∧ ∀ s ∈ ([50, 90, 90, 50] : List ℚ), 0 ≤ s ∧ s ≤ 100)
    ∧ ((bestWindow [50, 90, 90, 50] 1).1 + 1 ≤ ([50, 90, 90, 50] : List ℚ).length
      ∧ (bestWindow [50, 90, 90, 50] 1).2
          = windowAvg [50, 90, 90, 50] (bestWindow [50, 90, 90, 50] 1).1 1
      ∧ (∀ j, j + 1 ≤ ([50, 90, 90, 50] : List ℚ).length →
          windowAvg [50, 90, 90, 50] j 1 ≤ (bestWindow [50, 90, 90, 50] 1).2)
      ∧ (∀ j, j + 1 ≤ ([50, 90, 90, 50] : List ℚ).length →
          windowAvg [50, 90, 90, 50] j 1 = (bestWindow [50, 90, 90, 50] 1).2 →
          (bestWindow [50, 90, 90, 50] 1).1 ≤ j)) :=
  ⟨⟨le_refl 1, by norm_num, by norm_num⟩,
   c3_best_window_argmax [50, 90, 90, 50] 1 (le_refl 1) (by norm_num) (by norm_num)⟩

/-- C9: the impact-metrics computation behind the /impact endpoint returns
trees_equivalent = max(1, int(co2_saved_kg * 365 / 22)), which is at least 1
for every input, including co2_saved_kg = 0. -/
theorem c9_trees_equivalent_at_least_one (co2_saved_kg : ℚ) :
    (calculateImpactMetrics co2_saved_kg).trees_equivalent
        = max 1 (pyInt (co2_saved_kg * 365 / 22))
    ∧ 1 ≤ (calculateImpactMetrics co2_saved_kg).trees_equivalent :=
  ⟨rfl, le_max_left 1 _⟩

/-- C7: format_tree_message is the deterministic step function over the
thresholds 0.5, 1.5, 3, 5 and 10 given by treeTier, selecting among six
fixed pairwise-distinct strings, and the tier is monotone in the trees
value: a larger value never selects a lower tier. -/
theorem c7_tree_message_step (t u : ℚ) (h : t ≤ u) :
    format_tree_message t = treeMessages.getD (treeTier t) ""
    ∧ treeTier t ≤ treeTier u
    ∧ treeTier u ≤ 5
    ∧ treeMessages.length = 6
    ∧ treeMessages.Nodup := by
  refine ⟨?_, ?_, ?_, rfl, ?_⟩
  · unfold format_tree_message treeTier treeMessages
    split_ifs <;> rfl
  · unfold treeTier
    split_ifs <;> first | omega | linarith
  · unfold treeTier
    split_ifs <;> omega
  · decide

/-- Witness for C7 at the concrete pair 1 and 2 of tree values. -/
theorem c7_witness :
    format_tree_message 1 = treeMessages.getD (treeTier 1) ""
    ∧ treeTier 1 ≤ treeTier 2
    ∧ treeTier 2 ≤ 5
    ∧ treeMessages.length = 6
    ∧ treeMessages.Nodup :=
  c7_tree_message_step 1 2 (by norm_num)

/-- C6 counterexample: at avg_all = 0, avg_best = 10, duration 1 the raw
CO2 figure is exactly 1 kg, so the returned co2_saved_kg is 1, but the
returned trees figure is round(1 / 21.77, 2) = 0.05, which differs from
co2_saved_kg / 21.77 = 100/2177; the claimed unrounded equation fails. -/
theorem c6_counterexample :
    (calculate_impact 0 10 1).trees_planted_equiv
      ≠ (calculate_impact 0 10 1).co2_saved_kg / (2177/100) := by
  have hfloor : (⌊(10000/2177 : ℚ)⌋ : ℤ) = 4 := by
    norm_num [Int.floor_eq_iff]
  have hrhe : roundHalfEven (10000/2177 : ℚ) = 5 := by
    unfold roundHalfEven
    rw [hfloor]
    norm_num
  have harg : max (0:ℚ) ((10 - 0) / 10) * ((1:ℕ) : ℚ) = 1 := by
    norm_num [max_def]
  have hval : roundTo 2 ((1:ℚ) / (2177/100)) = 1/20 := by
    unfold roundTo
    rw [show ((1:ℚ) / (2177/100)) * 10 ^ 2 = 10000/2177 by norm_num, hrhe]
    norm_num
  have hone : roundTo 2 (1:ℚ) = 1 := by
    have h := roundTo_intCast 2 1
    simpa using h
  simp only [calculate_impact]
  rw [harg, hval, hone]
  norm_num

/-- C6 amended: calculate_impact returns the claimed quantities rounded to
two decimal places: co2_saved_kg = round(max(0, (avg_best - avg_all) / 10)
* duration_hours, 2) and trees_planted_equiv = round(raw_co2 / 21.77, 2);
both are non-negative for every input, hence in particular whenever
avg_best is at least avg_all, and both are exactly 0 when avg_best equals
avg_all. -/
theorem c6_impact_rounded_formula (avg_all avg_best : ℚ) (duration_hours : ℕ) :
    (calculate_impact avg_all avg_best duration_hours).co2_saved_kg
        = roundTo 2 (max 0 ((avg_best - avg_all) / 10) * (duration_hours : ℚ))
    ∧ (calculate_impact avg_all avg_best duration_hours).trees_planted_equiv
        = roundTo 2 (max 0 ((avg_best - avg_all) / 10) * (duration_hours : ℚ) / (2177/100))
    ∧ 0 ≤ (calculate_impact avg_all avg_best duration_hours).co2_saved_kg
    ∧ 0 ≤ (calculate_impact avg_all avg_best duration_hours).trees_planted_equiv
    ∧ (avg_best = avg_all →
        (calculate_impact avg_all avg_best duration_hours).co2_saved_kg = 0
        ∧ (calculate_impact avg_all avg_best duration_hours).trees_planted_equiv = 0) := by
  have hnn : 0 ≤ max 0 ((avg_best - avg_all) / 10) * (duration_hours : ℚ) :=
    mul_nonneg (le_max_left 0 _) (Nat.cast_nonneg _)
  refine ⟨rfl, rfl, roundTo_nonneg hnn,
    roundTo_nonneg (div_nonneg hnn (by norm_num)), ?_⟩
  intro heq
  have h0 : max (0:ℚ) ((avg_best - avg_all) / 10) * (duration_hours : ℚ) = 0 := by
    rw [heq, sub_self, zero_div, max_self, zero_mul]
  constructor
  · show roundTo 2 _ = 0
    rw [h0, roundTo_zero]
  · show roundTo 2 _ = 0
    rw [h0, zero_div, roundTo_zero]

/-- Witness for C6 amended at avg_all = avg_best = 5, duration 2: the impact
is exactly zero. -/
theorem c6_witness :
    (calculate_impact 5 5 2).co2_saved_kg = 0
    ∧ (calculate_impact 5 5 2).trees_planted_equiv = 0 :=
  (c6_impact_rounded_formula 5 5 2).2.2.2.2 rfl

/-- C8: with a target day supplied, the pipeline restricts the scored rows
to that UTC calendar date before any window selection (processing the
pre-filtered rows yields the identical outcome), and when the filter leaves
zero rows it fails with NoDataForDay instead of returning any window. -/
theorem c8_day_filter_restricts_and_fails (rows : List ScoredRow) (dday duration_hours : ℕ) :
    (filteredRows rows (some dday) = [] →
      pipelineSelect rows (some dday) duration_hours
        = Except.error PredError.NoDataForDay)
    ∧ pipelineSelect rows (some dday) duration_hours
        = pipelineSelect (filteredRows rows (some dday)) (some dday) duration_hours := by
  constructor
  · intro hempty
    simp [pipelineSelect, hempty]
  · have hidem : filteredRows (filteredRows rows (some dday)) (some dday)
        = filteredRows rows (some dday) := by
      simp only [filteredRows]
      apply List.filter_eq_self.mpr
      intro a ha
      exact (List.mem_filter.mp ha).2
    simp only [pipelineSelect, hidem]

/-- Witness for C8: a single row on day 0 filtered to day 1 leaves no rows
and the pipeline fails with NoDataForDay. -/
theorem c8_witness :
    filteredRows [⟨0, 50⟩] (some 1) = []
    ∧ pipelineSelect [⟨0, 50⟩] (some 1) 1 = Except.error PredError.NoDataForDay :=
  ⟨by norm_num [filteredRows],
   (c8_day_filter_restricts_and_fails [⟨0, 50⟩] 1 1).1 (by norm_num [filteredRows])⟩

/-- C10 amended: for every outcome of the random draws and of the sine
evaluations, the mock generator returns exactly hours points; each point
carries cleanliness_score = round(s, 1) for the clamped internal score s in
the interval 0 to 100 (so the rounded score also lies in 0 to 100) and
carbon_intensity = round(600 - 4 s, 1) computed from the same unrounded s,
which therefore lies between 200 and 600. -/
theorem c10_mock_predictions_invariants
    (sinVal nightR noise confR : ℕ → ℚ) (baseTime hours : ℕ) :
    (generateMockPredictions sinVal nightR noise confR baseTime hours).length = hours
    ∧ ∀ p ∈ generateMockPredictions sinVal nightR noise confR baseTime hours,
        (0 ≤ p.cleanliness_score ∧ p.cleanliness_score ≤ 100)
        ∧ (200 ≤ p.carbon_intensity ∧ p.carbon_intensity ≤ 600)
        ∧ ∃ s : ℚ, 0 ≤ s ∧ s ≤ 100
            ∧ p.cleanliness_score = roundTo 1 s
            ∧ p.carbon_intensity = roundTo 1 (600 - s * 4) := by
  constructor
  · simp [generateMockPredictions]
  · intro p hp
    simp only [generateMockPredictions, List.mem_map, List.mem_range] at hp
    obtain ⟨i, hi, hpe⟩ := hp
    subst hpe
    set s := max 0 (min 100
      ((if 6 ≤ (baseTime + i) % 24 ∧ (baseTime + i) % 24 ≤ 18
        then 60 + 30 * sinVal ((baseTime + i) % 24)
        else 40 + 20 * nightR i) + noise i)) with hsdef
    have hs0 : 0 ≤ s := le_max_left 0 _
    have hs100 : s ≤ 100 := max_le (by norm_num) (min_le_left 100 _)
    refine ⟨⟨roundTo_nonneg hs0, ?_⟩, ⟨?_, ?_⟩, s, hs0, hs100, rfl, rfl⟩
    · have h := roundTo_le_intCast (n := 1) (k := 100) (x := s) (by exact_mod_cast hs100)
      exact_mod_cast h
    · have hc : ((200:ℤ) : ℚ) ≤ 600 - s * 4 := by push_cast; linarith
      have h := intCast_le_roundTo (n := 1) hc
      exact_mod_cast h
    · have hc : 600 - s * 4 ≤ ((600:ℤ) : ℚ) := by push_cast; linarith
      have h := roundTo_le_intCast (n := 1) hc
      exact_mod_cast h

/-- Witness for C10 amended, with all oracles constantly zero, base hour 0
and a single point. -/
theorem c10_witness :
    (generateMockPredictions (fun _ => 0) (fun _ => 0) (fun _ => 0) (fun _ => 0) 0 1).length = 1
    ∧ ∀ p ∈ generateMockPredictions (fun _ => 0) (fun _ => 0) (fun _ => 0) (fun _ => 0) 0 1,
        (0 ≤ p.cleanliness_score ∧ p.cleanliness_score ≤ 100)
        ∧ (200 ≤ p.carbon_intensity ∧ p.carbon_intensity ≤ 600)
        ∧ ∃ s : ℚ, 0 ≤ s ∧ s ≤ 100
            ∧ p.cleanliness_score = roundTo 1 s
            ∧ p.carbon_intensity = roundTo 1 (600 - s * 4) :=
  c10_mock_predictions_invariants (fun _ => 0) (fun _ => 0) (fun _ => 0) (fun _ => 0) 0 1

/-- C10 counterexample: at base hour 0 (nighttime branch) with night draw
0.5 and noise 0.03 the internal score is 50.03; the stored cleanliness_score
rounds to 50.0 but the stored carbon_intensity is round(600 - 4 * 50.03, 1)
= 399.9, not 600 - 4 * 50.0 = 400: the claimed exact relation between the
two stored fields fails. -/
theorem c10_counterexample :
    ∃ p ∈ generateMockPredictions (fun _ => 0) (fun _ => 1/2) (fun _ => 3/100)
        (fun _ => 0) 0 1,
      p.carbon_intensity ≠ 600 - 4 * p.cleanliness_score := by
  have efloor1 : (⌊(5003/10 : ℚ)⌋ : ℤ) = 500 := by norm_num [Int.floor_eq_iff]
  have er1 : roundTo 1 (5003/100 : ℚ) = 50 := by
    unfold roundTo
    rw [show (5003/100 : ℚ) * 10 ^ 1 = 5003/10 by norm_num]
    unfold roundHalfEven
    rw [efloor1]
    norm_num
  have efloor2 : (⌊(19994/5 : ℚ)⌋ : ℤ) = 3998 := by norm_num [Int.floor_eq_iff]
  have er2 : roundTo 1 (600 - 5003/100 * 4 : ℚ) = 3999/10 := by
    unfold roundTo
    rw [show (600 - 5003/100 * 4 : ℚ) * 10 ^ 1 = 19994/5 by norm_num]
    unfold roundHalfEven
    rw [efloor2]
    norm_num
  have hscore : max (0:ℚ) (min 100
      ((if 6 ≤ (0 + 0) % 24 ∧ (0 + 0) % 24 ≤ 18
        then 60 + 30 * (0:ℚ)
        else 40 + 20 * (1/2 : ℚ)) + 3/100)) = 5003/100 := by
    norm_num [min_def, max_def]
  refine ⟨_, List.mem_map.mpr ⟨0, by norm_num, rfl⟩, ?_⟩
  simp only [hscore]
  rw [show (600 - 5003/100 * 4 : ℚ) = 600 - 5003/100 * 4 from rfl]
  rw [er1, er2]
  norm_num

lemma calculateImpactTree_nonpos (avg_score best_score : ℚ) (duration_hours : ℕ)
    (h : best_score ≤ avg_score) :
    calculateImpactTree avg_score best_score duration_hours
      = { trees_planted_equiv := 0,
          tree_message := "You helped a sapling take root ðŸŒ±" } := by
  unfold calculateImpactTree
  have hd0 : (best_score - avg_score) / 10 ≤ 0 := by linarith
  rw [max_eq_left hd0, zero_mul]
  norm_num [format_tree_message, roundTo_zero]

/-- C1: the code never raises InsufficientData.  With 5 scored hours and
duration_hours = 6 the loop body is never entered, the sentinel best_avg =
-1 leaks into the response, and the pipeline returns a window spanning only
the 5 available hours instead of failing. -/
theorem c1_insufficient_data_not_raised :
    pipelineSelect [⟨0, 10⟩, ⟨1, 20⟩, ⟨2, 30⟩, ⟨3, 40⟩, ⟨4, 50⟩] none 6
      = Except.ok
          { start := 0
            finish := 4
            average_cleanliness_score := -1
            impact := { trees_planted_equiv := 0,
                        tree_message := "You helped a sapling take root ðŸŒ±" }
            predictions := [⟨0, 10⟩, ⟨1, 20⟩, ⟨2, 30⟩, ⟨3, 40⟩, ⟨4, 50⟩] } := by
  have hbw : bestWindow [(10:ℚ), 20, 30, 40, 50] 6 = (0, -1) := by
    norm_num [bestWindow, numWindows]
  have himp := calculateImpactTree_nonpos 30 (-1) 6 (by norm_num)
  simp only [pipelineSelect, filteredRows, pipelineCore, List.map_cons, List.map_nil]
  rw [hbw]
  norm_num [roundTo_one_neg_one, List.getLast, himp]

/-- C4 counterexample: with 3 scored rows and duration_hours = 4 the
pipeline still returns a window, but it spans only 3 hours instead of the
requested 4 and reports the sentinel average -1, which is not the average
of any score window. -/
theorem c4_counterexample :
    ∃ resp, pipelineSelect [⟨0, 10⟩, ⟨1, 20⟩, ⟨2, 30⟩] none 4 = Except.ok resp
      ∧ ¬ (resp.finish + 1 - resp.start = 4)
      ∧ resp.average_cleanliness_score < 0 := by
  refine ⟨{ start := 0
            finish := 2
            average_cleanliness_score := -1
            impact := { trees_planted_equiv := 0,
                        tree_message := "You helped a sapling take root ðŸŒ±" }
            predictions := [⟨0, 10⟩, ⟨1, 20⟩, ⟨2, 30⟩] }, ?_, by norm_num, by norm_num⟩
  have hbw : bestWindow [(10:ℚ), 20, 30] 4 = (0, -1) := by
    norm_num [bestWindow, numWindows]
  have himp := calculateImpactTree_nonpos 20 (-1) 4 (by norm_num)
  simp only [pipelineSelect, filteredRows, pipelineCore, List.map_cons, List.map_nil]
  rw [hbw]
  norm_num [roundTo_one_neg_one, List.getLast, himp]

/-- C4 amended: whenever the requested duration does not exceed the number
of (day-filtered) scored rows and scores are non-negative, every returned
response carries a recommended window of exactly duration_hours contiguous
filtered rows: its start and end timestamps are those of rows idx and
idx + duration_hours - 1 of the filtered range, its reported average is the
window average rounded to one decimal, and that window average is maximal
among all same-length contiguous windows. -/
theorem c4_window_invariant_with_sufficient_data
    (rows : List ScoredRow) (day : Option ℕ) (duration_hours : ℕ) (resp : PredResponse)
    (hd : 1 ≤ duration_hours)
    (hs : ∀ r ∈ rows, 0 ≤ r.score)
    (hlen : duration_hours ≤ (filteredRows rows day).length)
    (hok : pipelineSelect rows day duration_hours = Except.ok resp) :
    ∃ idx, idx + duration_hours ≤ (filteredRows rows day).length
      ∧ ((filteredRows rows day)[idx]?).map ScoredRow.dt = some resp.start
      ∧ ((filteredRows rows day)[idx + duration_hours - 1]?).map ScoredRow.dt
          = some resp.finish
      ∧ resp.average_cleanliness_score
          = roundTo 1 (windowAvg ((filteredRows rows day).map ScoredRow.score)
              idx duration_hours)
      ∧ ∀ j, j + duration_hours ≤ (filteredRows rows day).length →
          windowAvg ((filteredRows rows day).map ScoredRow.score) j duration_hours
            ≤ windowAvg ((filteredRows rows day).map ScoredRow.score) idx
                duration_hours := by
  have hok2 : pipelineCore (filteredRows rows day) duration_hours = Except.ok resp := by
    cases day with
    | none => exact hok
    | some dd =>
        have hne : (filteredRows rows (some dd)).isEmpty = false := by
          cases hdnil : filteredRows rows (some dd) with
          | nil =>
              rw [hdnil] at hlen
              simp at hlen
              omega
          | cons x xs => simp
        have hsel : pipelineSelect rows (some dd) duration_hours
            = if (filteredRows rows (some dd)).isEmpty
              then Except.error PredError.NoDataForDay
              else pipelineCore (filteredRows rows (some dd)) duration_hours := rfl
        rw [hsel, hne] at hok
        simpa using hok
  set dfp := filteredRows rows day with hdfp
  have hsf : ∀ s ∈ dfp.map ScoredRow.score, 0 ≤ s := by
    intro s hsm
    obtain ⟨r, hr, rfl⟩ := List.mem_map.mp hsm
    exact hs r (mem_of_mem_filteredRows hr)
  have hlen2 : duration_hours ≤ (dfp.map ScoredRow.score).length := by
    simpa using hlen
  obtain ⟨hb1, hb2, hb3, hb4⟩ :=
    bestWindow_spec (dfp.map ScoredRow.score) duration_hours hd hlen2 hsf
  have hlensc : (dfp.map ScoredRow.score).length = dfp.length := by simp
  have hnz : ¬ ((dfp.map ScoredRow.score).length = 0) := by omega
  have hblen :
      ((dfp.drop (bestWindow (dfp.map ScoredRow.score) duration_hours).1).take
        duration_hours).length = duration_hours := by
    simp only [List.length_take, List.length_drop]
    omega
  obtain ⟨b, bs, hbbs⟩ : ∃ b bs,
      (dfp.drop (bestWindow (dfp.map ScoredRow.score) duration_hours).1).take
        duration_hours = b :: bs := by
    cases hbk : (dfp.drop (bestWindow (dfp.map ScoredRow.score) duration_hours).1).take
        duration_hours with
    | nil =>
        rw [hbk] at hblen
        simp at hblen
        omega
    | cons x xs => exact ⟨x, xs, rfl⟩
  have hblen2 : (b :: bs).length = duration_hours := by rw [← hbbs]; exact hblen
  have hcore : pipelineCore dfp duration_hours
      = Except.ok
          { start := b.dt
            finish := ((b :: bs).getLast (List.cons_ne_nil b bs)).dt
            average_cleanliness_score :=
              roundTo 1 (bestWindow (dfp.map ScoredRow.score) duration_hours).2
            impact := calculateImpactTree
              ((dfp.map ScoredRow.score).sum / ((dfp.map ScoredRow.score).length : ℚ))
              (bestWindow (dfp.map ScoredRow.score) duration_hours).2 duration_hours
            predictions := dfp } := by
    simp only [pipelineCore]
    rw [if_neg hnz, hbbs]
  rw [hcore] at hok2
  injection hok2 with hresp
  subst hresp
  refine ⟨(bestWindow (dfp.map ScoredRow.score) duration_hours).1, by omega, ?_, ?_, ?_, ?_⟩
  · have h0 : ((dfp.drop (bestWindow (dfp.map ScoredRow.score) duration_hours).1).take
        duration_hours)[0]? = some b := by
      rw [hbbs]
      simp
    rw [List.getElem?_take, if_pos (by omega), List.getElem?_drop, Nat.add_zero] at h0
    rw [h0]
    rfl
  · have h1 : (b :: bs).getLast? = some ((b :: bs).getLast (List.cons_ne_nil b bs)) :=
      List.getLast?_eq_getLast _ _
    have h2 : (b :: bs).getLast? = (b :: bs)[(b :: bs).length - 1]? :=
      List.getLast?_eq_getElem? _
    rw [hblen2] at h2
    have h3 : ((dfp.drop (bestWindow (dfp.map ScoredRow.score) duration_hours).1).take
        duration_hours)[duration_hours - 1]?
        = some ((b :: bs).getLast (List.cons_ne_nil b bs)) := by
      rw [hbbs, ← h2, h1]
    rw [List.getElem?_take, if_pos (by omega), List.getElem?_drop] at h3
    have hidx : (bestWindow (dfp.map ScoredRow.score) duration_hours).1
        + (duration_hours - 1)
        = (bestWindow (dfp.map ScoredRow.score) duration_hours).1
          + duration_hours - 1 := by omega
    rw [hidx] at h3
    rw [h3]
    rfl
  · rw [← hb2]
  · intro j hj
    rw [← hb2]
    exact hb3 j (by omega)

/-- Witness for C4 amended: two rows with score 0 and duration 1; the
returned window is the first row with average 0. -/
theorem c4_witness :
    ∃ idx, idx + 1 ≤ (filteredRows [⟨0, 0⟩, ⟨1, 0⟩] none).length
      ∧ ((filteredRows [⟨0, 0⟩, ⟨1, 0⟩] none)[idx]?).map ScoredRow.dt
          = some (0 : ℕ)
      ∧ ((filteredRows [⟨0, 0⟩, ⟨1, 0⟩] none)[idx + 1 - 1]?).map ScoredRow.dt
          = some (0 : ℕ)
      ∧ (0 : ℚ)
          = roundTo 1 (windowAvg ((filteredRows [⟨0, 0⟩, ⟨1, 0⟩] none).map
              ScoredRow.score) idx 1)
      ∧ ∀ j, j + 1 ≤ (filteredRows [⟨0, 0⟩, ⟨1, 0⟩] none).length →
          windowAvg ((filteredRows [⟨0, 0⟩, ⟨1, 0⟩] none).map ScoredRow.score) j 1
            ≤ windowAvg ((filteredRows [⟨0, 0⟩, ⟨1, 0⟩] none).map ScoredRow.score)
                idx 1 := by
  have hbw : bestWindow [(0:ℚ), 0] 1 = (0, 0) := by
    norm_num [bestWindow, numWindows, selectLoop, List.range_succ, windowAvg]
  have himp := calculateImpactTree_nonpos 0 0 1 (by norm_num)
  have hok : pipelineSelect [⟨0, 0⟩, ⟨1, 0⟩] none 1
      = Except.ok
          { start := 0
            finish := 0
            average_cleanliness_score := 0
            impact := { trees_planted_equiv := 0,
                        tree_message := "You helped a sapling take root ðŸŒ±" }
            predictions := [⟨0, 0⟩, ⟨1, 0⟩] } := by
    simp only [pipelineSelect, filteredRows, pipelineCore, List.map_cons, List.map_nil]
    rw [hbw]
    norm_num [roundTo_zero, List.getLast, himp]
  have h := c4_window_invariant_with_sufficient_data [⟨0, 0⟩, ⟨1, 0⟩] none 1
    { start := 0
      finish := 0
      average_cleanliness_score := 0
      impact := { trees_planted_equiv := 0,
                  tree_message := "You helped a sapling take root ðŸŒ±" }
      predictions := [⟨0, 0⟩, ⟨1, 0⟩] }
    (le_refl 1) (by norm_num [ScoredRow.score]) (by norm_num [filteredRows]) hok
  exact h

end CleanEnergy
